import Mathlib

/-!
Shallow embedding of the PackExperience.X sources.

The repository is a three.js scene: `main.js` (driver loop `animate`),
`effects.js` (post-processing chain), `world.js` (scene content and per-frame
world update) and `audio.js` (sound sources).  Numeric JS values are modelled
as exact rationals `ℚ` where the code is pure decimal arithmetic, and as reals
`ℝ` where `Math.sin` appears.  JS `undefined`/NaN propagation is modelled by
`Option ℝ` where a claim depends on it.
-/

/-! ## Driver loop (`animate` in src/main.js) -/

/-- Body of the `anomalyPositions.forEach` loop in `animate` (src/main.js):
the contribution of one anomaly to the base intensity, as a function of the
camera-to-anomaly distance `d = camera.position.distanceTo(pos)`.  The driver
adds `(1 - d/40) * 0.33` when `d < 40` and nothing otherwise. -/
def anomalyContribution (d : ℚ) : ℚ :=
  if d < 40 then (1 - d / 40) * 0.33 else 0

/-- `baseIntensity` as computed by `animate` (src/main.js): the accumulated
per-anomaly contributions, then `Math.min(baseIntensity, 1)`.  The loop is
embedded as a function of the list of camera-to-anomaly distances (one entry
per element of `anomalyPositions`), since the distance itself is produced by
the engine's `distanceTo`. -/
def baseIntensity (dists : List ℚ) : ℚ :=
  min ((dists.map anomalyContribution).sum) 1

/-- The spec's own description of the base intensity, written from its words:
"the sum, over all anomaly positions within distance 40 of the camera, of
(1 − distance/40)·0.33, clamped to at most 1" — a filtered sum rather than a
guarded accumulation. -/
def specBaseIntensity (dists : List ℚ) : ℚ :=
  min (((dists.filter (fun d => decide (d < 40))).map (fun d => (1 - d / 40) * 0.33)).sum) 1

/-- The pill-decay block of `animate` (src/main.js):
`if (pillIntensity > 0) { pillIntensity *= 0.99; if (pillIntensity < 0.01) pillIntensity = 0; }`. -/
def pillStep (p : ℚ) : ℚ :=
  if 0 < p then
    if p * 0.99 < 0.01 then 0 else p * 0.99
  else p

/-- `totalIntensity` in `animate` (src/main.js): `Math.min(1, baseIntensity + pillIntensity)`. -/
def totalIntensity (dists : List ℚ) (pill : ℚ) : ℚ :=
  min 1 (baseIntensity dists + pill)

/-- The two driver events that touch `pillIntensity` (src/main.js): a frame of
`animate` (the decay block) and the `KeyE` keydown handler
(`pillIntensity = 1.0`). -/
inductive DriverEvent
  | frame
  | pillKey

/-- Effect of one driver event on the `pillIntensity` variable. -/
def pillEventStep (e : DriverEvent) (p : ℚ) : ℚ :=
  match e with
  | .frame => pillStep p
  | .pillKey => 1.0

/-- `pillIntensity` after a sequence of driver events, from its initial value
`let pillIntensity = 0.0` (src/main.js). -/
def runPillEvents (es : List DriverEvent) : ℚ :=
  es.foldl (fun p e => pillEventStep e p) 0.0

/-! ## Effects stack (src/effects.js: `setupEffects`, `updateEffects`) -/

/-- Kinds of passes added to the `EffectComposer` in `setupEffects`. -/
inductive PassKind
  | render
  | bloom
  | rgbShift
  | film
  | vignette
deriving DecidableEq

/-- `RenderPass(scene, camera)`: no tunable uniforms used here. -/
structure RenderPassT where
  renderToScreen : Bool
deriving DecidableEq

/-- `UnrealBloomPass` as configured in `setupEffects`: the constructor values
`(1.5, 0.4, 0.85)` are immediately overwritten to
`threshold = 0.1`, `strength = 1.2`, `radius = 0.5`. -/
structure BloomPassT where
  threshold : ℚ
  strength : ℚ
  radius : ℚ
  renderToScreen : Bool
deriving DecidableEq

/-- `ShaderPass(RGBShiftShader)` with uniform `amount`. -/
structure RGBShiftPassT where
  amount : ℚ
  renderToScreen : Bool
deriving DecidableEq

/-- `FilmPass(0.35, 0.5, 2048, false)`: noise intensity, scanline intensity,
scanline count, grayscale. -/
structure FilmPassT where
  nIntensity : ℚ
  sIntensity : ℚ
  sCount : ℚ
  grayscale : Bool
  renderToScreen : Bool
deriving DecidableEq

/-- `ShaderPass(VignetteShader)` with uniforms `offset` and `darkness`. -/
structure VignettePassT where
  offset : ℚ
  darkness : ℚ
  renderToScreen : Bool
deriving DecidableEq

/-- The `EffectComposer` built by `setupEffects`: the five passes and the
order in which `composer.addPass` received them. -/
structure Composer where
  renderPass : RenderPassT
  bloomPass : BloomPassT
  rgbShiftPass : RGBShiftPassT
  filmPass : FilmPassT
  vignettePass : VignettePassT
  passOrder : List PassKind
deriving DecidableEq

/-- `setupEffects` (src/effects.js): configures the five passes, adds them in
the order render → bloom → rgbShift → film → vignette, sets
`filmPass.renderToScreen = false` and `vignettePass.renderToScreen = true`
(every other pass keeps the engine default `false`). -/
def setupEffects : Composer :=
  { renderPass := { renderToScreen := false }
    bloomPass := { threshold := 0.1, strength := 1.2, radius := 0.5, renderToScreen := false }
    rgbShiftPass := { amount := 0.0025, renderToScreen := false }
    filmPass := { nIntensity := 0.35, sIntensity := 0.5, sCount := 2048,
                  grayscale := false, renderToScreen := false }
    vignettePass := { offset := 0.8, darkness := 1.2, renderToScreen := true }
    passOrder := [.render, .bloom, .rgbShift, .film, .vignette] }

/-- The module-level pass variables of src/effects.js
(`let bloomPass, rgbShiftPass, filmPass, vignettePass;`): each is undefined
(`none`) until `setupEffects` runs, and `updateEffects` guards each mutation
with a presence check. -/
structure EffectsState where
  bloomPass : Option BloomPassT
  rgbShiftPass : Option RGBShiftPassT
  filmPass : Option FilmPassT
  vignettePass : Option VignettePassT
deriving DecidableEq

/-- `bloomPass.strength = 0.8 + intensity * 2.0` in `updateEffects`. -/
def bloomStrength (intensity : ℚ) : ℚ := 0.8 + intensity * 2.0

/-- `bloomPass.radius = 0.3 + intensity * 0.7` in `updateEffects`. -/
def bloomRadius (intensity : ℚ) : ℚ := 0.3 + intensity * 0.7

/-- `rgbShiftPass.uniforms['amount'].value = 0.001 + intensity * 0.012`. -/
def rgbShiftAmount (intensity : ℚ) : ℚ := 0.001 + intensity * 0.012

/-- `filmPass.uniforms.nIntensity.value = 0.2 + intensity * 0.8`. -/
def noiseIntensity (intensity : ℚ) : ℚ := 0.2 + intensity * 0.8

/-- `filmPass.uniforms.sIntensity.value = 0.3 + intensity * 0.7`. -/
def scanlineIntensity (intensity : ℚ) : ℚ := 0.3 + intensity * 0.7

/-- `vignettePass.uniforms['offset'].value = 0.9 - intensity * 0.4`. -/
def vignetteOffset (intensity : ℚ) : ℚ := 0.9 - intensity * 0.4

/-- `vignettePass.uniforms['darkness'].value = 1.0 + intensity * 0.8`. -/
def vignetteDarkness (intensity : ℚ) : ℚ := 1.0 + intensity * 0.8

/-- `updateEffects(intensity)` (src/effects.js): for each pass that exists,
assign its intensity-mapped parameters; every other field is untouched. -/
def updateEffects (intensity : ℚ) (s : EffectsState) : EffectsState :=
  { bloomPass := s.bloomPass.map fun b =>
      { b with strength := bloomStrength intensity, radius := bloomRadius intensity }
    rgbShiftPass := s.rgbShiftPass.map fun r =>
      { r with amount := rgbShiftAmount intensity }
    filmPass := s.filmPass.map fun f =>
      { f with nIntensity := noiseIntensity intensity,
               sIntensity := scanlineIntensity intensity }
    vignettePass := s.vignettePass.map fun v =>
      { v with offset := vignetteOffset intensity,
               darkness := vignetteDarkness intensity } }

/-! ## Audio layer (src/audio.js: `updateAudio`, `triggerPill`) -/

/-- The non-positional pill sound (`pillSound = new THREE.Audio(listener)`).
`buffer` records whether `setBuffer` has run (the asynchronous load finished);
`playbackPosition` is the engine's playback progress, `0` meaning the
beginning of the sample. -/
structure PillSound where
  buffer : Bool
  isPlaying : Bool
  playbackPosition : ℚ
deriving DecidableEq

/-- The engine's `Audio.stop()`: stops playback and resets the playback
progress to the beginning. -/
def soundStop (s : PillSound) : PillSound :=
  { s with isPlaying := false, playbackPosition := 0 }

/-- The engine's `Audio.play()`: starts playback at the current playback
position; a second `play()` on an already-playing source is a warning no-op,
so a single source never plays twice concurrently. -/
def soundPlay (s : PillSound) : PillSound :=
  if s.isPlaying then s else { s with isPlaying := true }

/-- `triggerPill()` (src/audio.js):
`if (pillSound && pillSound.buffer) { if (pillSound.isPlaying) pillSound.stop(); pillSound.play(); }`.
The module-level `pillSound` is `none` before `setupAudio` runs. -/
def triggerPill : Option PillSound → Option PillSound
  | none => none
  | some ps =>
      if ps.buffer then
        some (soundPlay (if ps.isPlaying then soundStop ps else ps))
      else
        some ps

/-- The looping background track (`backgroundMusic = new THREE.Audio(listener)`)
with the fields the audio module touches. -/
structure BgMusic where
  volume : ℚ
  loop : Bool
  isPlaying : Bool
deriving DecidableEq

/-- The module-level state of src/audio.js that the per-frame hooks read and
write: `backgroundMusic` and `pillSound`, each `none` until `setupAudio`
creates it. -/
structure AudioState where
  backgroundMusic : Option BgMusic
  pillSound : Option PillSound
deriving DecidableEq

/-- `updateAudio(intensity)` (src/audio.js):
`if (backgroundMusic) backgroundMusic.setVolume(0.3 + intensity * 0.7)`. -/
def updateAudio (intensity : ℚ) (s : AudioState) : AudioState :=
  { s with backgroundMusic := s.backgroundMusic.map fun m =>
      { m with volume := 0.3 + intensity * 0.7 } }

/-! ## World builder (src/world.js: `buildWorld`, `updateWorld`)

`updateWorld` mixes decimal constants with `Math.sin`, so this part of the
model lives over `ℝ`. -/

/-- The two kinds of objects `updateWorld` distinguishes
(`obj.isMesh` / `obj.isPoints`); everything `buildWorld` pushes onto
`animatedObjects` is one of the two. -/
inductive ObjKind
  | mesh
  | points
deriving DecidableEq

/-- A 3D vector (`THREE.Vector3`). -/
structure Vec3 where
  x : ℝ
  y : ℝ
  z : ℝ

/-- An object's rotation (`THREE.Euler`, the `obj.rotation` of a mesh or
point cloud). -/
structure EulerRot where
  x : ℝ
  y : ℝ
  z : ℝ

/-- An entry of the module-level `animatedObjects` array of src/world.js:
a mesh or point cloud with the state `buildWorld` gives it and `updateWorld`
touches. -/
structure AnimatedObject where
  kind : ObjKind
  rotation : EulerRot
  position : Vec3
  scale : ℝ

/-- An entry of the module-level `pulsatingLights` array of src/world.js
(`THREE.PointLight`s at teleporter and anomaly positions). -/
structure PulsatingLight where
  intensity : ℝ
  position : Vec3

/-- The module-level mutable state of src/world.js after `buildWorld`:
the tracked animated objects, the pulsating lights, and the exported
`anomalyPositions` array. -/
structure World where
  animatedObjects : List AnimatedObject
  pulsatingLights : List PulsatingLight
  anomalyPositions : List Vec3

/-- The rotation branch of `updateWorld` (src/world.js): meshes get
`rotation.y += 0.0005; rotation.x += 0.0002`, point clouds get
`rotation.y += 0.0001`. -/
noncomputable def rotateStep (o : AnimatedObject) : AnimatedObject :=
  match o.kind with
  | .mesh =>
      { o with rotation :=
          { o.rotation with y := o.rotation.y + 0.0005, x := o.rotation.x + 0.0002 } }
  | .points =>
      { o with rotation := { o.rotation with y := o.rotation.y + 0.0001 } }

/-- The light branch of `updateWorld` (src/world.js):
`light.intensity = 1.5 + intensity * 1.5 + Math.sin(time * 3) * 0.5`. -/
noncomputable def pulseLight (time intensity : ℝ) (l : PulsatingLight) : PulsatingLight :=
  { l with intensity := 1.5 + intensity * 1.5 + Real.sin (time * 3) * 0.5 }

/-- `updateWorld(time, intensity)` (src/world.js): rotates every tracked
object and re-assigns every pulsating light's intensity; nothing else in the
module state is touched. -/
noncomputable def updateWorld (time intensity : ℝ) (w : World) : World :=
  { w with
    animatedObjects := w.animatedObjects.map rotateStep
    pulsatingLights := w.pulsatingLights.map (pulseLight time intensity) }

/-! ## JS number semantics for the composed `updateWorld` call

`main.js` line 53 invokes `updateWorld(elapsedTime)` with a single argument,
although src/world.js declares `updateWorld(time, intensity)`; in JS the
missing `intensity` is `undefined`, and any arithmetic involving it yields
NaN.  `Option ℝ` models a JS number, `none` standing for NaN (or for
`undefined` once it enters arithmetic). -/

/-- A JS floating-point value: `some r` is an ordinary number, `none` is NaN
(or `undefined` fed into arithmetic). -/
abbrev JSNum := Option ℝ

/-- JS addition: NaN-propagating. -/
noncomputable def jsAdd : JSNum → JSNum → JSNum
  | some a, some b => some (a + b)
  | _, _ => none

/-- JS multiplication: NaN-propagating. -/
noncomputable def jsMul : JSNum → JSNum → JSNum
  | some a, some b => some (a * b)
  | _, _ => none

/-- `Math.sin`: NaN-propagating. -/
noncomputable def jsSin : JSNum → JSNum
  | some a => some (Real.sin a)
  | none => none

/-- The light-intensity expression of `updateWorld` (src/world.js):
`1.5 + intensity * 1.5 + Math.sin(time * 3) * 0.5`, under JS number
semantics. -/
noncomputable def jsLightIntensity (time intensity : JSNum) : JSNum :=
  jsAdd (jsAdd (some 1.5) (jsMul intensity (some 1.5)))
        (jsMul (jsSin (jsMul time (some 3))) (some 0.5))

/-- The light intensity produced by the composed program's per-frame call
`updateWorld(elapsedTime)` (src/main.js): the `intensity` argument is
missing, i.e. `undefined`. -/
noncomputable def animateLightIntensity (elapsedTime : ℝ) : JSNum :=
  jsLightIntensity (some elapsedTime) none

/-! ## Helper lemmas -/

lemma anomalyContribution_nonneg (d : ℚ) : 0 ≤ anomalyContribution d := by
  unfold anomalyContribution
  split
  · have h40 : (0:ℚ) < 40 := by norm_num
    have : 0 < 1 - d / 40 := by
      rw [sub_pos, div_lt_one h40]
      linarith
    positivity
  · exact le_refl 0

lemma baseIntensity_nonneg (dists : List ℚ) : 0 ≤ baseIntensity dists := by
  unfold baseIntensity
  refine le_min ?_ (by norm_num)
  apply List.sum_nonneg
  intro x hx
  obtain ⟨d, _, rfl⟩ := List.mem_map.mp hx
  exact anomalyContribution_nonneg d

lemma contribution_sum_eq_filtered (dists : List ℚ) :
    (dists.map anomalyContribution).sum =
    ((dists.filter (fun d => decide (d < 40))).map (fun d => (1 - d / 40) * 0.33)).sum := by
  induction dists with
  | nil => rfl
  | cons d rest ih =>
    by_cases hd : d < 40
    · simp [anomalyContribution, hd, ih]
    · simp [anomalyContribution, hd, ih]

lemma pillStep_nonneg (p : ℚ) (hp : 0 ≤ p) : 0 ≤ pillStep p := by
  unfold pillStep
  split
  · split
    · exact le_refl 0
    · positivity
  · exact hp

lemma pillStep_le_self (p : ℚ) (hp : 0 ≤ p) : pillStep p ≤ p := by
  unfold pillStep
  split
  · split
    · exact hp
    · nlinarith
  · exact le_refl p

lemma pillStep_le_one (p : ℚ) (hp0 : 0 ≤ p) (hp1 : p ≤ 1) : pillStep p ≤ 1 :=
  le_trans (pillStep_le_self p hp0) hp1

lemma runPillEvents_foldl_mem (es : List DriverEvent) (p : ℚ)
    (hp0 : 0 ≤ p) (hp1 : p ≤ 1) :
    0 ≤ es.foldl (fun q e => pillEventStep e q) p ∧
    es.foldl (fun q e => pillEventStep e q) p ≤ 1 := by
  induction es generalizing p with
  | nil => exact ⟨hp0, hp1⟩
  | cons e rest ih =>
    cases e with
    | frame =>
      exact ih (pillStep p) (pillStep_nonneg p hp0) (pillStep_le_one p hp0 hp1)
    | pillKey =>
      exact ih 1.0 (by norm_num) (by norm_num)

lemma pillDecay_458 : (0.01 : ℚ) < 0.99 ^ 458 := by norm_num

lemma pillDecay_459 : (0.99 : ℚ) ^ 459 < 0.01 := by norm_num

lemma pillStep_iterate_pow (n : ℕ) (hn : n ≤ 458) :
    pillStep^[n] 1 = (0.99 : ℚ) ^ n := by
  induction n with
  | zero => simp
  | succ m ih =>
    have hm : m ≤ 458 := Nat.le_of_succ_le hn
    rw [Function.iterate_succ_apply', ih hm]
    have hpos : (0 : ℚ) < 0.99 ^ m := by positivity
    have hkeep : ¬ (0.99 : ℚ) ^ m * 0.99 < 0.01 := by
      rw [← pow_succ]
      have hle : (0.99 : ℚ) ^ 458 ≤ 0.99 ^ (m + 1) :=
        pow_le_pow_of_le_one (by norm_num) (by norm_num) hn
      have := pillDecay_458
      intro hcon
      linarith
    unfold pillStep
    rw [if_pos hpos, if_neg hkeep, ← pow_succ]

set_option exponentiation.threshold 600 in
lemma pillStep_iterate_459 : pillStep^[459] 1 = (0 : ℚ) := by
  rw [Function.iterate_succ_apply', pillStep_iterate_pow 458 (le_refl 458)]
  have hpos : (0 : ℚ) < 0.99 ^ 458 := by positivity
  have hsnap : (0.99 : ℚ) ^ 458 * 0.99 < 0.01 := by
    rw [← pow_succ]
    exact pillDecay_459
  unfold pillStep
  rw [if_pos hpos, if_pos hsnap]

lemma pillStep_fixed_zero : pillStep 0 = 0 := by
  norm_num [pillStep]

/-! ## Claim theorems -/

/-- C1: per frame, the driver's base intensity equals the sum over anomaly
positions at distance `< 40` of `(1 - d/40) * 0.33`, clamped to at most 1;
a single anomaly contributes `0.33` at distance 0, `0.165` at distance 20,
and `0` at any distance `≥ 40`. -/
theorem C1_base_intensity (dists : List ℚ) (d : ℚ) :
    baseIntensity dists = specBaseIntensity dists ∧
    anomalyContribution 0 = 0.33 ∧
    anomalyContribution 20 = 0.165 ∧
    (40 ≤ d → anomalyContribution d = 0) ∧
    baseIntensity [0] = 0.33 ∧
    baseIntensity [20] = 0.165 := by
  refine ⟨?_, ?_, ?_, ?_, ?_, ?_⟩
  · unfold baseIntensity specBaseIntensity
    rw [contribution_sum_eq_filtered]
  · norm_num [anomalyContribution]
  · norm_num [anomalyContribution]
  · intro hd
    have : ¬ d < 40 := not_lt.mpr hd
    simp [anomalyContribution, this]
  · norm_num [baseIntensity, anomalyContribution]
  · norm_num [baseIntensity, anomalyContribution]

theorem C1_base_intensity_witness :
    baseIntensity [0, 20, 47] = specBaseIntensity [0, 20, 47] ∧
    anomalyContribution 47 = 0 :=
  ⟨(C1_base_intensity [0, 20, 47] 47).1,
   (C1_base_intensity [0, 20, 47] 47).2.2.2.1 (by norm_num)⟩

/-- C2: for every list of camera-to-anomaly distances and every non-negative
pill boost, the total intensity forwarded to `updateEffects` and `updateAudio`
lies in `[0, 1]`. -/
theorem C2_total_intensity_in_unit_interval (dists : List ℚ) (pill : ℚ)
    (hp : 0 ≤ pill) :
    0 ≤ totalIntensity dists pill ∧ totalIntensity dists pill ≤ 1 := by
  constructor
  · refine le_min (by norm_num) ?_
    have := baseIntensity_nonneg dists
    linarith
  · exact min_le_left 1 _

theorem C2_total_intensity_witness :
    0 ≤ totalIntensity [0, 5, 100] 2 ∧ totalIntensity [0, 5, 100] 2 ≤ 1 :=
  C2_total_intensity_in_unit_interval [0, 5, 100] 2 (by norm_num)

/-- C3: the pill boost from `1.0` follows `0.99 ^ n` for the first 458 frames,
each of those values exceeding `0.01`; on frame 459 it first becomes
`≤ 0.01` (it is snapped to `0`), it is `0` on every later frame, and the
update fixes `0`. -/
theorem C3_pill_decay (n m : ℕ) :
    (n ≤ 458 → pillStep^[n] 1 = (0.99 : ℚ) ^ n ∧ 0.01 < pillStep^[n] 1) ∧
    pillStep^[459] 1 ≤ 0.01 ∧
    (459 ≤ m → pillStep^[m] 1 = 0) ∧
    pillStep 0 = 0 := by
  refine ⟨?_, ?_, ?_, pillStep_fixed_zero⟩
  · intro hn
    refine ⟨pillStep_iterate_pow n hn, ?_⟩
    rw [pillStep_iterate_pow n hn]
    have hle : (0.99 : ℚ) ^ 458 ≤ 0.99 ^ n :=
      pow_le_pow_of_le_one (by norm_num) (by norm_num) hn
    have := pillDecay_458
    linarith
  · rw [pillStep_iterate_459]; norm_num
  · intro hm
    obtain ⟨k, rfl⟩ := Nat.exists_eq_add_of_le hm
    rw [Nat.add_comm, Function.iterate_add_apply, pillStep_iterate_459]
    exact Function.iterate_fixed pillStep_fixed_zero k

theorem C3_pill_decay_witness :
    pillStep^[458] 1 = (0.99 : ℚ) ^ 458 ∧
    (0.01 : ℚ) < pillStep^[458] 1 ∧
    pillStep^[459] 1 ≤ 0.01 ∧
    pillStep^[500] 1 = 0 :=
  ⟨((C3_pill_decay 458 500).1 (by norm_num)).1,
   ((C3_pill_decay 458 500).1 (by norm_num)).2,
   (C3_pill_decay 458 500).2.1,
   (C3_pill_decay 458 500).2.2.1 (by norm_num)⟩

/-- C4: `updateEffects i` sets exactly the seven intensity-mapped parameters
(each by its affine formula, all other fields of each pass untouched); each
mapping is monotone on `[0,1]` (the vignette offset antitonely, matching its
decreasing endpoints), with the stated endpoint values. -/
theorem C4_updateEffects_mappings (i j : ℚ) (s : EffectsState)
    (b : BloomPassT) (r : RGBShiftPassT) (f : FilmPassT) (v : VignettePassT) :
    (s.bloomPass = some b → (updateEffects i s).bloomPass =
      some { b with strength := 0.8 + i * 2.0, radius := 0.3 + i * 0.7 }) ∧
    (s.rgbShiftPass = some r → (updateEffects i s).rgbShiftPass =
      some { r with amount := 0.001 + i * 0.012 }) ∧
    (s.filmPass = some f → (updateEffects i s).filmPass =
      some { f with nIntensity := 0.2 + i * 0.8, sIntensity := 0.3 + i * 0.7 }) ∧
    (s.vignettePass = some v → (updateEffects i s).vignettePass =
      some { v with offset := 0.9 - i * 0.4, darkness := 1.0 + i * 0.8 }) ∧
    (0 ≤ i → i ≤ j → j ≤ 1 →
      bloomStrength i ≤ bloomStrength j ∧
      bloomRadius i ≤ bloomRadius j ∧
      rgbShiftAmount i ≤ rgbShiftAmount j ∧
      noiseIntensity i ≤ noiseIntensity j ∧
      scanlineIntensity i ≤ scanlineIntensity j ∧
      vignetteDarkness i ≤ vignetteDarkness j ∧
      vignetteOffset j ≤ vignetteOffset i) ∧
    bloomStrength 0 = 0.8 ∧ bloomStrength 1 = 2.8 ∧
    vignetteOffset 0 = 0.9 ∧ vignetteOffset 1 = 0.5 := by
  refine ⟨?_, ?_, ?_, ?_, ?_, by norm_num [bloomStrength], by norm_num [bloomStrength],
    by norm_num [vignetteOffset], by norm_num [vignetteOffset]⟩
  · intro hb
    simp [updateEffects, hb, bloomStrength, bloomRadius]
  · intro hr
    simp [updateEffects, hr, rgbShiftAmount]
  · intro hf
    simp [updateEffects, hf, noiseIntensity, scanlineIntensity]
  · intro hv
    simp [updateEffects, hv, vignetteOffset, vignetteDarkness]
  · intro _ hij _
    unfold bloomStrength bloomRadius rgbShiftAmount noiseIntensity scanlineIntensity vignetteDarkness vignetteOffset
    refine ⟨by linarith, by linarith, by linarith, by linarith, by linarith, by linarith, by linarith⟩

theorem C4_updateEffects_witness :
    (updateEffects 0 { bloomPass := some setupEffects.bloomPass,
                       rgbShiftPass := some setupEffects.rgbShiftPass,
                       filmPass := some setupEffects.filmPass,
                       vignettePass := some setupEffects.vignettePass }).bloomPass =
      some { setupEffects.bloomPass with strength := 0.8 + 0 * 2.0, radius := 0.3 + 0 * 0.7 } ∧
    (bloomStrength 0 ≤ bloomStrength 1 ∧
      bloomRadius 0 ≤ bloomRadius 1 ∧
      rgbShiftAmount 0 ≤ rgbShiftAmount 1 ∧
      noiseIntensity 0 ≤ noiseIntensity 1 ∧
      scanlineIntensity 0 ≤ scanlineIntensity 1 ∧
      vignetteDarkness 0 ≤ vignetteDarkness 1 ∧
      vignetteOffset 1 ≤ vignetteOffset 0) :=
  ⟨(C4_updateEffects_mappings 0 1
      { bloomPass := some setupEffects.bloomPass,
        rgbShiftPass := some setupEffects.rgbShiftPass,
        filmPass := some setupEffects.filmPass,
        vignettePass := some setupEffects.vignettePass }
      setupEffects.bloomPass setupEffects.rgbShiftPass
      setupEffects.filmPass setupEffects.vignettePass).1 rfl,
   (C4_updateEffects_mappings 0 1
      { bloomPass := some setupEffects.bloomPass,
        rgbShiftPass := some setupEffects.rgbShiftPass,
        filmPass := some setupEffects.filmPass,
        vignettePass := some setupEffects.vignettePass }
      setupEffects.bloomPass setupEffects.rgbShiftPass
      setupEffects.filmPass setupEffects.vignettePass).2.2.2.2.1
      (by norm_num) (by norm_num) (by norm_num)⟩

/-- C5: in the composed program the claim fails: `main.js` calls
`updateWorld(elapsedTime)` without the `intensity` argument, so under JS
semantics the assigned light intensity is NaN on every frame, not the
well-defined value `1.5 + intensity * 1.5 + sin(time * 3) * 0.5` that the same
expression produces when both arguments are numbers (and which `updateWorld`
applies to every tracked light). -/
theorem C5_composed_light_intensity (t i : ℝ) (w : World) :
    animateLightIntensity t = none ∧
    jsLightIntensity (some t) (some i) =
      some (1.5 + i * 1.5 + Real.sin (t * 3) * 0.5) ∧
    (updateWorld t i w).pulsatingLights = w.pulsatingLights.map (pulseLight t i) ∧
    (pulseLight t i { intensity := 0, position := { x := 0, y := 0, z := 0 } }).intensity =
      1.5 + i * 1.5 + Real.sin (t * 3) * 0.5 :=
  ⟨rfl, rfl, rfl, rfl⟩

/-- C6: `triggerPill` is a no-op when the pill sound is missing or its buffer
has not loaded; when the buffer is loaded and the sound is playing it stops it
and restarts it from the beginning (one playback slot, so never two
overlapping sounds); whenever the buffer is loaded the result is playing. -/
theorem C6_triggerPill (ps : PillSound) :
    triggerPill none = none ∧
    (ps.buffer = false → triggerPill (some ps) = some ps) ∧
    (ps.buffer = true → ps.isPlaying = true →
      triggerPill (some ps) =
        some { buffer := true, isPlaying := true, playbackPosition := 0 }) ∧
    (ps.buffer = true → (triggerPill (some ps)).map (fun q => q.isPlaying) = some true) := by
  refine ⟨rfl, ?_, ?_, ?_⟩
  · intro hb
    simp [triggerPill, hb]
  · intro hb hplay
    simp [triggerPill, hb, hplay, soundStop, soundPlay]
  · intro hb
    by_cases hplay : ps.isPlaying
    · simp [triggerPill, hb, hplay, soundStop, soundPlay]
    · simp [triggerPill, hb, hplay, soundPlay]

theorem C6_triggerPill_witness :
    triggerPill (some { buffer := false, isPlaying := false, playbackPosition := 0 }) =
      some { buffer := false, isPlaying := false, playbackPosition := 0 } ∧
    triggerPill (some { buffer := true, isPlaying := true, playbackPosition := 7 }) =
      some { buffer := true, isPlaying := true, playbackPosition := 0 } :=
  ⟨(C6_triggerPill { buffer := false, isPlaying := false, playbackPosition := 0 }).2.1 rfl,
   (C6_triggerPill { buffer := true, isPlaying := true, playbackPosition := 7 }).2.2.1 rfl rfl⟩

/-- C7: `updateAudio i` sets the background music volume to exactly
`0.3 + i * 0.7`, leaves every other field of the music and the pill sound
untouched, and is a no-op when the background music does not exist. -/
theorem C7_updateAudio (i : ℚ) (s : AudioState) (m : BgMusic) :
    (s.backgroundMusic = none → updateAudio i s = s) ∧
    (s.backgroundMusic = some m →
      (updateAudio i s).backgroundMusic = some { m with volume := 0.3 + i * 0.7 }) ∧
    (updateAudio i s).pillSound = s.pillSound := by
  refine ⟨?_, ?_, rfl⟩
  · intro hm
    cases s with
    | mk bg pill => cases hm; rfl
  · intro hm
    simp [updateAudio, hm]

theorem C7_updateAudio_witness :
    (updateAudio 1 { backgroundMusic := some { volume := 0.5, loop := true, isPlaying := true },
                     pillSound := none }).backgroundMusic =
      some { volume := 0.3 + 1 * 0.7, loop := true, isPlaying := true } ∧
    updateAudio 1 { backgroundMusic := none, pillSound := none } =
      { backgroundMusic := none, pillSound := none } :=
  ⟨(C7_updateAudio 1
      { backgroundMusic := some { volume := 0.5, loop := true, isPlaying := true },
        pillSound := none }
      { volume := 0.5, loop := true, isPlaying := true }).2.1 rfl,
   (C7_updateAudio 1 { backgroundMusic := none, pillSound := none }
      { volume := 0.5, loop := true, isPlaying := true }).1 rfl⟩

/-- C8: `setupEffects` adds the passes in exactly the order
render, bloom, chromatic shift, film grain, vignette, and the vignette pass is
the unique pass with `renderToScreen = true`. -/
theorem C8_effects_chain_order :
    setupEffects.passOrder = [.render, .bloom, .rgbShift, .film, .vignette] ∧
    setupEffects.passOrder.getLast? = some .vignette ∧
    setupEffects.vignettePass.renderToScreen = true ∧
    setupEffects.renderPass.renderToScreen = false ∧
    setupEffects.bloomPass.renderToScreen = false ∧
    setupEffects.rgbShiftPass.renderToScreen = false ∧
    setupEffects.filmPass.renderToScreen = false := by
  refine ⟨rfl, rfl, rfl, rfl, rfl, rfl, rfl⟩

/-- C9: `updateWorld` leaves the anomaly-position list untouched and maps the
tracked objects and lights elementwise; the object step changes only the
rotation — meshes by `(+0.0002, +0.0005, +0)`, point clouds by
`(+0, +0.0001, +0)` — keeping position, scale and kind, and the light step
keeps the light's position while re-assigning its intensity. -/
theorem C9_updateWorld_mutation_scope (time intensity : ℝ) (w : World)
    (o : AnimatedObject) (l : PulsatingLight) :
    (updateWorld time intensity w).anomalyPositions = w.anomalyPositions ∧
    (updateWorld time intensity w).animatedObjects = w.animatedObjects.map rotateStep ∧
    (updateWorld time intensity w).pulsatingLights =
      w.pulsatingLights.map (pulseLight time intensity) ∧
    (rotateStep o).position = o.position ∧
    (rotateStep o).scale = o.scale ∧
    (rotateStep o).kind = o.kind ∧
    (o.kind = ObjKind.mesh → (rotateStep o).rotation =
      { x := o.rotation.x + 0.0002, y := o.rotation.y + 0.0005, z := o.rotation.z }) ∧
    (o.kind = ObjKind.points → (rotateStep o).rotation =
      { x := o.rotation.x, y := o.rotation.y + 0.0001, z := o.rotation.z }) ∧
    (pulseLight time intensity l).position = l.position ∧
    (pulseLight time intensity l).intensity =
      1.5 + intensity * 1.5 + Real.sin (time * 3) * 0.5 := by
  obtain ⟨k, rot, pos, sc⟩ := o
  refine ⟨rfl, rfl, rfl, ?_, ?_, ?_, ?_, ?_, rfl, rfl⟩
  · cases k <;> rfl
  · cases k <;> rfl
  · cases k <;> rfl
  · intro hk
    cases k
    · rfl
    · simp at hk
  · intro hk
    cases k
    · simp at hk
    · rfl

theorem C9_updateWorld_witness :
    (rotateStep { kind := ObjKind.mesh, rotation := { x := 0, y := 0, z := 0 },
                  position := { x := 1, y := 2, z := 3 }, scale := 1 }).rotation =
      { x := (0 : ℝ) + 0.0002, y := 0 + 0.0005, z := 0 } ∧
    (rotateStep { kind := ObjKind.points, rotation := { x := 0, y := 0, z := 0 },
                  position := { x := 1, y := 2, z := 3 }, scale := 1 }).rotation =
      { x := (0 : ℝ), y := 0 + 0.0001, z := 0 } ∧
    (updateWorld 0 0 { animatedObjects := [], pulsatingLights := [],
                       anomalyPositions := [{ x := 5, y := 6, z := 7 }] }).anomalyPositions =
      [{ x := 5, y := 6, z := 7 }] :=
  ⟨(C9_updateWorld_mutation_scope 0 0
      { animatedObjects := [], pulsatingLights := [],
        anomalyPositions := [{ x := 5, y := 6, z := 7 }] }
      { kind := ObjKind.mesh, rotation := { x := 0, y := 0, z := 0 },
        position := { x := 1, y := 2, z := 3 }, scale := 1 }
      { intensity := 0, position := { x := 0, y := 0, z := 0 } }).2.2.2.2.2.2.1 rfl,
   (C9_updateWorld_mutation_scope 0 0
      { animatedObjects := [], pulsatingLights := [],
        anomalyPositions := [{ x := 5, y := 6, z := 7 }] }
      { kind := ObjKind.points, rotation := { x := 0, y := 0, z := 0 },
        position := { x := 1, y := 2, z := 3 }, scale := 1 }
      { intensity := 0, position := { x := 0, y := 0, z := 0 } }).2.2.2.2.2.2.2.1 rfl,
   (C9_updateWorld_mutation_scope 0 0
      { animatedObjects := [], pulsatingLights := [],
        anomalyPositions := [{ x := 5, y := 6, z := 7 }] }
      { kind := ObjKind.mesh, rotation := { x := 0, y := 0, z := 0 },
        position := { x := 1, y := 2, z := 3 }, scale := 1 }
      { intensity := 0, position := { x := 0, y := 0, z := 0 } }).1⟩

/-- C10: under every interleaving of frames and `KeyE` presses, the pill
boost stays in `[0, 1]`; a key press overwrites it with exactly `1.0`, and a
frame's decay never increases a non-negative boost and keeps it
non-negative. -/
theorem C10_pill_boost_invariant (es : List DriverEvent) (p : ℚ) :
    (0 ≤ runPillEvents es ∧ runPillEvents es ≤ 1) ∧
    pillEventStep .pillKey p = 1 ∧
    (0 ≤ p → pillStep p ≤ p ∧ 0 ≤ pillStep p) := by
  refine ⟨?_, by norm_num [pillEventStep], fun hp => ⟨pillStep_le_self p hp, pillStep_nonneg p hp⟩⟩
  exact runPillEvents_foldl_mem es 0.0 (by norm_num) (by norm_num)

theorem C10_pill_boost_witness :
    (0 ≤ runPillEvents [.pillKey, .frame, .frame] ∧
      runPillEvents [.pillKey, .frame, .frame] ≤ 1) ∧
    pillEventStep .pillKey 0.5 = 1 ∧
    (pillStep 0.5 ≤ 0.5 ∧ 0 ≤ pillStep 0.5) :=
  ⟨(C10_pill_boost_invariant [.pillKey, .frame, .frame] 0.5).1,
   (C10_pill_boost_invariant [.pillKey, .frame, .frame] 0.5).2.1,
   (C10_pill_boost_invariant [.pillKey, .frame, .frame] 0.5).2.2 (by norm_num)⟩
